import Mathlib

/-!
Shallow embedding of the Financial-Health-Summarizer pipeline
(`src/AutoPaperLBO.py`) and proofs about its specified behaviour.

Numeric values are modelled as exact rationals (`ℚ`); Python `None` /
missing dict keys are modelled as `Option.none`.  Fallible code returns
`Option`; every pipeline stage is a total Lean function, which is the
embedding of "never raises".
-/

/-! ## Character and string helpers (Python `str.strip`, `str.replace`) -/

/-- ASCII whitespace recognised by Python's `str.strip()` (the subset
relevant to this development). -/
def isWsChar (c : Char) : Bool :=
  c == ' ' || c == '\t' || c == '\n' || c == '\r' || c == '\x0b' || c == '\x0c'

/-- `value_str.replace(',', '')`: drop every comma. -/
def removeCommas (cs : List Char) : List Char :=
  cs.filter (fun c => c != ',')

/-- `str.strip()`: drop leading and trailing whitespace. -/
def trimChars (cs : List Char) : List Char :=
  ((cs.dropWhile isWsChar).reverse.dropWhile isWsChar).reverse

/-- `str.strip()` at the `String` level. -/
def stripStr (s : String) : String :=
  ⟨trimChars s.toList⟩

/-! ## `try_convert_to_float` (src/AutoPaperLBO.py lines 10-14)

`float(value_str.replace(',', '').strip())`, returning `None` on any
exception.  We model the finite-decimal-literal subset of Python's float
grammar: optional sign, digits with optional fraction part, optional
decimal exponent.  (`inf`/`nan` and digit underscores are outside the
model; no claim depends on them.) -/

/-- Numeric value of a digit string. -/
def digitsToNat (cs : List Char) : Nat :=
  cs.foldl (fun a c => a * 10 + (c.toNat - '0'.toNat)) 0

/-- Parse the optional exponent suffix `([eE][+-]?digits)?`; `none` on a
malformed suffix, `some e` with the signed exponent otherwise. -/
def parseExpPart : List Char → Option Int
  | [] => some 0
  | c :: rest =>
    if c == 'e' || c == 'E' then
      match rest with
      | '+' :: ds =>
        if ds ≠ [] ∧ ds.all Char.isDigit then some (digitsToNat ds) else none
      | '-' :: ds =>
        if ds ≠ [] ∧ ds.all Char.isDigit then some (-(digitsToNat ds : Int)) else none
      | ds =>
        if ds ≠ [] ∧ ds.all Char.isDigit then some (digitsToNat ds) else none
    else none

/-- Parse an unsigned decimal literal `digits[.digits][exp]` or
`.digits[exp]`. -/
def parseUnsignedFloat (cs : List Char) : Option ℚ :=
  let (ip, rest) := cs.span Char.isDigit
  match rest with
  | '.' :: rest2 =>
    let (fp, rest3) := rest2.span Char.isDigit
    if ip = [] ∧ fp = [] then none
    else
      match parseExpPart rest3 with
      | none => none
      | some e =>
        let mant : ℚ := (digitsToNat (ip ++ fp) : ℚ) / ((10 : ℚ) ^ fp.length)
        some (mant * (10 : ℚ) ^ e)
  | _ =>
    if ip = [] then none
    else
      match parseExpPart rest with
      | none => none
      | some e => some ((digitsToNat ip : ℚ) * (10 : ℚ) ^ e)

/-- Parse a signed decimal literal. -/
def parseFloatChars : List Char → Option ℚ
  | '+' :: rest => parseUnsignedFloat rest
  | '-' :: rest => (parseUnsignedFloat rest).map (fun q => -q)
  | cs => parseUnsignedFloat cs

/-- `try_convert_to_float` (lines 10-14): strip commas and whitespace,
then convert; `none` models the `except` branch returning `None`. -/
def try_convert_to_float (s : String) : Option ℚ :=
  parseFloatChars (trimChars (removeCommas s.toList))

/-! ## Parsed XML elements

An element as seen by the scan loop: `tag` is the namespace-resolved
(Clark-notation) element tag, `name` is `elem.attrib.get("name", "")`,
`text` is `elem.text or ""`. -/

structure XmlElem where
  tag : String
  name : String
  text : String
deriving DecidableEq, Repr

/-- `f"{{{inline_ns}}}nonFraction"` with
`inline_ns = "http://www.xbrl.org/2013/inlineXBRL"` (lines 165, 168). -/
def inlineNonFractionTag : String :=
  "\x7bhttp://www.xbrl.org/2013/inlineXBRL\x7dnonFraction"

/-! ## The streaming scan (`xbrl_parse_financial_data_iterparse`, lines 139-193) -/

/-- Canonical keys of the scan's `data` dict (line 157-164).  Constructor ↔
dict key: `revenue` ↔ "Revenue", `cogs` ↔ "Cost of Goods Sold",
`operatingIncome` ↔ "Operating Income", `depAmort` ↔
"DepreciationAmortation", `interestExpense` ↔ "Interest Expense",
`incomeBeforeTax` ↔ "Income Before Tax". -/
inductive FactKey where
  | revenue
  | cogs
  | operatingIncome
  | depAmort
  | interestExpense
  | incomeBeforeTax
deriving DecidableEq, Repr

/-- The `target_names` dict (lines 139-156): concept identifier → canonical
fact key. -/
def target_names (n : String) : Option FactKey :=
  if n = "us-gaap:SalesRevenueNet" then some .revenue
  else if n = "us-gaap:Revenues" then some .revenue
  else if n = "us-gaap:NetSales" then some .revenue
  else if n = "us-gaap:NetRevenue" then some .revenue
  else if n = "us-gaap:CostOfGoodsSold" then some .cogs
  else if n = "us-gaap:CostOfGoodsAndServicesSold" then some .cogs
  else if n = "us-gaap:CostOfRevenue" then some .cogs
  else if n = "us-gaap:OperatingIncomeLoss" then some .operatingIncome
  else if n = "us-gaap:OperatingIncome" then some .operatingIncome
  else if n = "us-gaap:DepreciationDepletionAndAmortization" then some .depAmort
  else if n = "us-gaap:InterestExpense" then some .interestExpense
  else if n = "us-gaap:InterestExpenseBenefit" then some .interestExpense
  else if n = "us-gaap:IncomeBeforeTax" then some .incomeBeforeTax
  else if n = "us-gaap:IncomeBeforeTaxExpenseBenefit" then some .incomeBeforeTax
  else if n = "us-gaap:ProfitBeforeTax" then some .incomeBeforeTax
  else if n = "us-gaap:PreTaxIncome" then some .incomeBeforeTax
  else none

/-- The scan's mutable `data` dict (lines 157-164). -/
structure ScanData where
  revenue : Option ℚ
  cogs : Option ℚ
  operatingIncome : Option ℚ
  depAmort : Option ℚ
  interestExpense : Option ℚ
  incomeBeforeTax : Option ℚ
deriving DecidableEq, Repr

/-- Initial `data` dict: every key maps to `None` (lines 157-164). -/
def initialScanData : ScanData :=
  ⟨none, none, none, none, none, none⟩

/-- Loop body of the iterparse scan (lines 167-193): one `end` event. -/
def processElem (d : ScanData) (e : XmlElem) : ScanData :=
  if e.tag = inlineNonFractionTag then
    match target_names e.name with
    | none => d
    | some key =>
      match try_convert_to_float e.text with
      | none => d
      | some value =>
        match key with
        | .revenue =>
          if d.revenue = none ∨ e.name = "us-gaap:SalesRevenueNet" then
            { d with revenue := some value }
          else d
        | .cogs =>
          if d.cogs = none ∨ e.name = "us-gaap:CostOfGoodsSold" ∨
              e.name = "us-gaap:CostOfGoodsAndServicesSold" then
            { d with cogs := some value }
          else d
        | .operatingIncome =>
          if d.operatingIncome = none ∨ e.name = "us-gaap:OperatingIncomeLoss" then
            { d with operatingIncome := some value }
          else d
        | .depAmort =>
          if d.depAmort = none then { d with depAmort := some value } else d
        | .interestExpense =>
          if d.interestExpense = none ∨ e.name = "us-gaap:InterestExpense" then
            { d with interestExpense := some value }
          else d
        | .incomeBeforeTax =>
          if d.incomeBeforeTax = none ∨ e.name = "us-gaap:IncomeBeforeTax" ∨
              e.name = "us-gaap:ProfitBeforeTax" ∨ e.name = "us-gaap:PreTaxIncome" then
            { d with incomeBeforeTax := some value }
          else d
  else d

/-- The forward pass over all completed elements, in end-event order. -/
def scanElems (es : List XmlElem) : ScanData :=
  es.foldl processElem initialScanData

/-- `ResolvedFacts`: the 7-field record both extraction strategies return
(lines 50-58, 96-104, 209-217). -/
structure ResolvedFacts where
  revenue : Option ℚ
  cogs : Option ℚ
  operatingIncome : Option ℚ
  depreciation : Option ℚ
  amortization : Option ℚ
  interestExpense : Option ℚ
  incomeBeforeTax : Option ℚ
deriving DecidableEq, Repr

/-- The all-absent record: every field `None`.  Models both the 7-key
all-`None` dict (lines 50-58) and the empty dict `{}` (line 196), which
are observationally identical through `dict.get`. -/
def allAbsentFacts : ResolvedFacts :=
  ⟨none, none, none, none, none, none, none⟩

/-- Post-scan derivation of the iterparse strategy (lines 198-217):
Income-Before-Tax fallback to Operating Income, then the even split of the
combined depreciation-and-amortization figure. -/
def finalizeScan (d : ScanData) : ResolvedFacts :=
  let d1 :=
    if d.incomeBeforeTax = none ∧ d.operatingIncome ≠ none then
      { d with incomeBeforeTax := d.operatingIncome }
    else d
  let da : Option ℚ × Option ℚ :=
    match d1.depAmort with
    | some c => (some (c / 2), some (c / 2))
    | none => (none, none)
  { revenue := d1.revenue
    cogs := d1.cogs
    operatingIncome := d1.operatingIncome
    depreciation := da.1
    amortization := da.2
    interestExpense := d1.interestExpense
    incomeBeforeTax := d1.incomeBeforeTax }

/-! ## `calculate_metrics` (lines 220-272) -/

/-- The metrics dict.  `EBIT`/`EBITDA`/`EBT` are always inserted (possibly
as `None`, modelled `none`); the diagnostic fields are inserted only when
their precondition holds, so for them `none` models "key absent". -/
structure MetricsRecord where
  EBIT : Option ℚ
  EBITDA : Option ℚ
  EBT : Option ℚ
  grossProfit : Option ℚ
  grossMargin : Option ℚ
  costEfficiency : Option ℚ
  operatingMargin : Option ℚ
  ebitdaMargin : Option ℚ
  pretaxMargin : Option ℚ
  interestCoverage : Option ℚ
  depreciationRatio : Option ℚ
  amortizationRatio : Option ℚ
deriving DecidableEq, Repr

/-- `calculate_metrics` (lines 220-272), field for field. -/
def calculate_metrics (d : ResolvedFacts) : MetricsRecord :=
  let revenue := d.revenue
  let cogs := d.cogs
  let operating_income := d.operatingIncome
  let depreciation := d.depreciation
  let amortization := d.amortization
  let interest_expense := d.interestExpense
  -- EBIT = operating_income, else revenue - cogs when both present (232-234)
  let EBIT : Option ℚ :=
    match operating_income with
    | some v => some v
    | none =>
      match revenue, cogs with
      | some r, some c => some (r - c)
      | _, _ => none
  -- EBITDA = EBIT + depreciation (if present) + amortization (if present) (236-241)
  let EBITDA : Option ℚ :=
    match EBIT with
    | none => none
    | some e =>
      let e1 := match depreciation with | some dv => e + dv | none => e
      let e2 := match amortization with | some av => e1 + av | none => e1
      some e2
  -- income_before_tax defaulted to EBIT when absent; EBT aliases it (243-245)
  let income_before_tax : Option ℚ :=
    match d.incomeBeforeTax with
    | some v => some v
    | none => match EBIT with | some e => some e | none => none
  let EBT := income_before_tax
  -- diagnostics (247-264)
  let gpGmCe : Option ℚ × Option ℚ × Option ℚ :=
    match revenue, cogs with
    | some r, some c =>
      if r ≠ 0 then (some (r - c), some ((r - c) / r), some (c / r))
      else (none, none, none)
    | _, _ => (none, none, none)
  let operatingMargin : Option ℚ :=
    match revenue, operating_income with
    | some r, some o => if r ≠ 0 then some (o / r) else none
    | _, _ => none
  let ebitdaMargin : Option ℚ :=
    match revenue, EBITDA with
    | some r, some e => if r ≠ 0 then some (e / r) else none
    | _, _ => none
  let pretaxMargin : Option ℚ :=
    match revenue, income_before_tax with
    | some r, some i => if r ≠ 0 then some (i / r) else none
    | _, _ => none
  let interestCoverage : Option ℚ :=
    match operating_income, interest_expense with
    | some o, some ie => if ie ≠ 0 then some (o / ie) else none
    | _, _ => none
  let depreciationRatio : Option ℚ :=
    match revenue, depreciation with
    | some r, some dv => if r ≠ 0 then some (dv / r) else none
    | _, _ => none
  let amortizationRatio : Option ℚ :=
    match revenue, amortization with
    | some r, some av => if r ≠ 0 then some (av / r) else none
    | _, _ => none
  { EBIT := EBIT
    EBITDA := EBITDA
    EBT := EBT
    grossProfit := gpGmCe.1
    grossMargin := gpGmCe.2.1
    costEfficiency := gpGmCe.2.2
    operatingMargin := operatingMargin
    ebitdaMargin := ebitdaMargin
    pretaxMargin := pretaxMargin
    interestCoverage := interestCoverage
    depreciationRatio := depreciationRatio
    amortizationRatio := amortizationRatio }

/-! ## `compute_financial_health_score` (lines 274-303) -/

/-- `scale(value, low, high) = max(1, min((value-low)/(high-low)*10, 10))`
(lines 286-288). -/
def scaleScore (value low high : ℚ) : ℚ :=
  max 1 (min ((value - low) / (high - low) * 10) 10)

/-- `compute_financial_health_score` (lines 274-303): neutral defaults for
absent metrics, per-metric benchmark scaling, fixed-weight combination. -/
def compute_financial_health_score (m : MetricsRecord) : ℚ :=
  let gm := m.grossMargin.getD 0.6
  let om := m.operatingMargin.getD 0.15
  let ebm := m.ebitdaMargin.getD 0.15
  let ptm := m.pretaxMargin.getD 0.15
  let itr := m.interestCoverage.getD 10
  let ce := m.costEfficiency.getD 0.35
  let score_gross := scaleScore gm 0.4 0.8
  let score_operating := scaleScore om 0.0 0.3
  let score_ebitda := scaleScore ebm 0.0 0.3
  let score_pretax := scaleScore ptm 0.0 0.3
  let score_interest := scaleScore itr 1 20
  let score_cost := scaleScore (0.5 - ce) 0 0.3
  0.25 * score_gross + 0.20 * score_operating + 0.15 * score_ebitda +
    0.15 * score_pretax + 0.15 * score_interest + 0.10 * score_cost

/-! ## Whole-fragment query strategy (`xbrl_parse_financial_data`, lines 16-105) -/

/-- Clark-notation tag for the `us-gaap` namespace map of line 60
(`{'us-gaap': 'http://fasb.org/us-gaap/2024'}`). -/
def gaapTag (localName : String) : String :=
  "\x7bhttp://fasb.org/us-gaap/2024\x7d" ++ localName

/-- Model of `tree.xpath('string(//tag)')`: the text of the first element
with the given resolved tag, `""` when there is none.  (For the leaf fact
elements involved, an element's string-value is its text.) -/
def xpathString (es : List XmlElem) (tag : String) : String :=
  match es.find? (fun e => e.tag == tag) with
  | some e => e.text
  | none => ""

/-- First alias in `tags` whose xpath string-value is nonempty after
stripping, else `""` — the repeated `if x.strip() == ""` chains of
lines 63-94. -/
def xpathFirstNonEmpty (es : List XmlElem) : List String → String
  | [] => ""
  | t :: ts =>
    let s := xpathString es t
    if stripStr s = "" then xpathFirstNonEmpty es ts else s

/-- The combined depreciation-and-amortization capture of lines 79-84:
`some v` exactly when the xpath result is nonempty after stripping and
converts to a number. -/
def nonIterCombined (es : List XmlElem) : Option ℚ :=
  let dep_amort := xpathString es (gaapTag "DepreciationDepletionAndAmortization")
  if stripStr dep_amort ≠ "" then try_convert_to_float dep_amort else none

/-- Body of `xbrl_parse_financial_data` after a successful parse
(lines 60-105). -/
def xbrlParseFromElems (es : List XmlElem) : ResolvedFacts :=
  let revenue := xpathFirstNonEmpty es
    [gaapTag "SalesRevenueNet", gaapTag "Revenues", gaapTag "NetSales", gaapTag "NetRevenue"]
  let cogs := xpathFirstNonEmpty es [gaapTag "CostOfGoodsSold", gaapTag "CostOfRevenue"]
  let operating_income := xpathFirstNonEmpty es
    [gaapTag "OperatingIncomeLoss", gaapTag "OperatingIncome"]
  let da : Option ℚ × Option ℚ :=
    match nonIterCombined es with
    | some combined => (some (combined / 2), some (combined / 2))
    | none => (none, none)
  let interest_expense := xpathFirstNonEmpty es
    [gaapTag "InterestExpense", gaapTag "InterestExpenseBenefit"]
  let income_before_tax := xpathFirstNonEmpty es
    [gaapTag "IncomeBeforeTax", gaapTag "IncomeBeforeTaxExpenseBenefit"]
  { revenue := try_convert_to_float revenue
    cogs := try_convert_to_float cogs
    operatingIncome := try_convert_to_float operating_income
    depreciation := da.1
    amortization := da.2
    interestExpense := try_convert_to_float interest_expense
    incomeBeforeTax := try_convert_to_float income_before_tax }

/-! ## XML parsing model

A small well-formedness-checking parser standing in for `lxml.etree`:
it tokenizes tags and text, resolves namespace prefixes declared via
`xmlns:p="uri"` attributes to Clark-notation tags, matches open/close
tags with a stack, and fails (returns `none`, the embedding of the
parser exception) on malformed input — an unterminated or mismatched
tag, an invalid name, an unbound prefix.  On success it returns every
element in end-event order, which is exactly the order `iterparse`
delivers `end` events. -/

inductive XmlToken where
  | tOpen (name : String) (attrs : List (String × String)) (selfClose : Bool)
  | tClose (name : String)
  | tText (s : String)
  | tSkip
deriving DecidableEq, Repr

/-- Characters allowed in tag/attribute names by the model. -/
def isNameChar (c : Char) : Bool :=
  c.isAlphanum || c == ':' || c == '-' || c == '_' || c == '.'

/-- Split at the first `'>'`: `some (before, after)`, or `none` when the
tag is never terminated. -/
def splitAtGt : List Char → Option (List Char × List Char)
  | [] => none
  | '>' :: rest => some ([], rest)
  | c :: rest =>
    match splitAtGt rest with
    | some (a, b) => some (c :: a, b)
    | none => none

/-- Parse the `key="value"` attribute list of a start tag. -/
def parseAttrList (fuel : Nat) (cs : List Char) :
    Option (List (String × String)) :=
  match fuel with
  | 0 => none
  | fuel + 1 =>
    let cs := cs.dropWhile isWsChar
    match cs with
    | [] => some []
    | _ =>
      let (key, rest) := cs.span (fun c => isNameChar c)
      if key = [] then none
      else
        match rest.dropWhile isWsChar with
        | '=' :: r1 =>
          match r1.dropWhile isWsChar with
          | '"' :: r2 =>
            let (val, r3) := r2.span (fun c => c != '"')
            match r3 with
            | '"' :: r4 =>
              match parseAttrList fuel r4 with
              | some attrs => some ((⟨key⟩, ⟨val⟩) :: attrs)
              | none => none
            | _ => none
          | _ => none
        | _ => none

/-- Parse the inside of one `<...>` bracket into a token. -/
def parseTagChars (inside : List Char) : Option XmlToken :=
  match inside with
  | [] => none
  | '!' :: _ => some .tSkip
  | '?' :: _ => some .tSkip
  | '/' :: rest =>
    let name := trimChars rest
    if name ≠ [] ∧ name.all isNameChar then some (.tClose ⟨name⟩) else none
  | _ =>
    let (body, selfClose) :=
      match inside.reverse with
      | '/' :: r => (r.reverse, true)
      | _ => (inside, false)
    let (name, rest) := body.span isNameChar
    if name = [] then none
    else
      match parseAttrList (rest.length + 1) rest with
      | some attrs => some (.tOpen ⟨name⟩ attrs selfClose)
      | none => none

/-- Tokenize: alternating text runs and `<...>` brackets; `none` when a
`<` is never closed by `>`. -/
def tokenizeXml (fuel : Nat) (cs : List Char) : Option (List XmlToken) :=
  match fuel with
  | 0 => none
  | fuel + 1 =>
    match cs with
    | [] => some []
    | '<' :: rest =>
      match splitAtGt rest with
      | none => none
      | some (inside, rest') =>
        match parseTagChars inside with
        | none => none
        | some tok =>
          match tokenizeXml fuel rest' with
          | some toks => some (tok :: toks)
          | none => none
    | c :: rest =>
      let (txt, rest') := rest.span (fun ch => ch != '<')
      match tokenizeXml fuel rest' with
      | some toks => some (.tText ⟨c :: txt⟩ :: toks)
      | none => none

/-- `xmlns:p="uri"` bindings carried by an attribute list. -/
def xmlnsBindings (attrs : List (String × String)) : List (String × String) :=
  attrs.filterMap (fun kv =>
    let k := kv.1.toList
    if "xmlns:".toList.isPrefixOf k then some (⟨k.drop 6⟩, kv.2) else none)

/-- Resolve a possibly-prefixed name against the accumulated `xmlns`
environment: `p:local` becomes `{uri}local`; an unbound prefix is a parse
error (`none`); an unprefixed name stays as written. -/
def resolveQName (env : List (String × String)) (n : String) : Option String :=
  match n.toList.span (fun c => c != ':') with
  | (_, []) => some n
  | (p, _ :: localPart) =>
    match env.lookup ⟨p⟩ with
    | some uri => some ("\x7b" ++ uri ++ "\x7d" ++ String.mk localPart)
    | none => none

/-- One frame of the open-element stack: raw name, resolved tag, `name`
attribute, accumulated leading text, whether a child has been seen. -/
structure XmlFrame where
  rawName : String
  tag : String
  nameAttr : String
  text : String
  childSeen : Bool
deriving Repr

/-- Stack-based tree builder over the token list.  Emits completed
elements in end-event order; fails on mismatched or unterminated tags. -/
def buildElems (toks : List XmlToken) (env : List (String × String))
    (stack : List XmlFrame) (acc : List XmlElem) : Option (List XmlElem) :=
  match toks with
  | [] =>
    match stack with
    | [] => some acc.reverse
    | _ :: _ => none
  | tok :: rest =>
    match tok with
    | .tSkip => buildElems rest env stack acc
    | .tText s =>
      match stack with
      | [] => buildElems rest env stack acc
      | fr :: frs =>
        if fr.childSeen then buildElems rest env (fr :: frs) acc
        else buildElems rest env ({ fr with text := fr.text ++ s } :: frs) acc
    | .tOpen n attrs selfClose =>
      let env' := env ++ xmlnsBindings attrs
      match resolveQName env' n with
      | none => none
      | some tag =>
        let nameAttr := (attrs.lookup "name").getD ""
        let parentMarked :=
          match stack with
          | [] => []
          | fr :: frs => { fr with childSeen := true } :: frs
        if selfClose then
          buildElems rest env' parentMarked (⟨tag, nameAttr, ""⟩ :: acc)
        else
          buildElems rest env' (⟨n, tag, nameAttr, "", false⟩ :: parentMarked) acc
    | .tClose n =>
      match stack with
      | [] => none
      | fr :: frs =>
        if fr.rawName = n then
          buildElems rest env frs (⟨fr.tag, fr.nameAttr, fr.text⟩ :: acc)
        else none

/-- Full parse: tokenize then build; `none` is the embedding of an
`lxml` parse exception. -/
def parseXmlString (s : String) : Option (List XmlElem) :=
  match tokenizeXml (s.length + 1) s.toList with
  | none => none
  | some toks => buildElems toks [] [] []

/-! ## Document normalization (lines 23-44 and 114-136) -/

/-- Substring occurrence over char lists. -/
def containsSubChars (pat : List Char) : List Char → Bool
  | [] => pat.isPrefixOf ([] : List Char)
  | c :: rest => pat.isPrefixOf (c :: rest) || containsSubChars pat rest

/-- `pat in line` (Python substring test). -/
def containsSub (s pat : String) : Bool :=
  containsSubChars pat.toList s.toList

/-- Split a char list at `'\n'` boundaries. -/
def splitLinesChars : List Char → List (List Char)
  | [] => [[]]
  | '\n' :: rest => [] :: splitLinesChars rest
  | c :: rest =>
    match splitLinesChars rest with
    | l :: ls => (c :: l) :: ls
    | [] => [[c]]

/-- Split a document into lines, the units of the capture loop. -/
def splitLines (s : String) : List String :=
  (splitLinesChars s.toList).map String.mk

/-- Rejoin captured lines with the newlines the split removed, restoring
the captured block of the document. -/
def joinLines : List String → String
  | [] => ""
  | [l] => l
  | l :: ls => l ++ "\n" ++ joinLines ls

/-- Capture loop once `inside_xbrl` is true: append each line, stop after
the first line containing `</XBRL>`. -/
def captureInside : List String → List String
  | [] => []
  | l :: ls =>
    l :: (if containsSub l "</XBRL>" then [] else captureInside ls)

/-- The line capture loop of lines 114-123 (identical in lines 23-32):
skip until a line contains `<XBRL`, then capture through the first line
containing `</XBRL>`. -/
def captureXbrlLines : List String → List String
  | [] => []
  | l :: ls =>
    if containsSub l "<XBRL" then
      l :: (if containsSub l "</XBRL>" then [] else captureInside ls)
    else captureXbrlLines ls

/-- Split at the first occurrence of `pat`: `some (before, fromMatch)`. -/
def splitAtSub (pat : List Char) : List Char → Option (List Char × List Char)
  | [] => if pat.isPrefixOf ([] : List Char) then some ([], []) else none
  | c :: rest =>
    if pat.isPrefixOf (c :: rest) then some ([], c :: rest)
    else
      match splitAtSub pat rest with
      | some (a, b) => some (c :: a, b)
      | none => none

/-- `re.search(r'(?s)<XBRL.*?</XBRL>', s)` of lines 131-134: the substring
from the first `<XBRL` through the first following `</XBRL>`, or the whole
string when there is no match. -/
def regexXbrlBlock (s : String) : String :=
  match splitAtSub "<XBRL".toList s.toList with
  | none => s
  | some (_, fromOpen) =>
    match splitAtSub "</XBRL>".toList fromOpen with
    | none => s
    | some (mid, _) => ⟨mid ++ "</XBRL>".toList⟩

/-- `re.sub(r'<\?xml[^>]+\?>', '', s)` (lines 42 and 135): delete every
span `<?xml` + (one or more non-`>` chars ending in `?`) + `>`. -/
def removeXmlDeclsAux (fuel : Nat) (cs : List Char) : List Char :=
  match fuel with
  | 0 => cs
  | fuel + 1 =>
    match splitAtSub "<?xml".toList cs with
    | none => cs
    | some (before, fromDecl) =>
      let after5 := fromDecl.drop 5
      let (body, rest) := after5.span (fun c => c != '>')
      match rest with
      | '>' :: rest' =>
        if body.length ≥ 2 ∧ body.getLast? = some '?' then
          before ++ removeXmlDeclsAux fuel rest'
        else before ++ "<?xml".toList ++ removeXmlDeclsAux fuel after5
      | _ => before ++ fromDecl

/-- String-level wrapper for the declaration removal. -/
def removeXmlDecls (s : String) : String :=
  ⟨removeXmlDeclsAux (s.length + 1) s.toList⟩

/-- Normalization of the iterparse strategy (lines 114-136): line capture,
strip, regex block extraction, declaration removal, strip, wrap in a dummy
`<root>`. -/
def iterNormalize (doc : String) : String :=
  let ls := captureXbrlLines (splitLines doc)
  let content := match ls with | [] => doc | _ => joinLines ls
  let content := stripStr content
  let content := regexXbrlBlock content
  let content := stripStr (removeXmlDecls content)
  "<root>" ++ content ++ "</root>"

/-- Normalization of the whole-fragment strategy (lines 23-44): as above
but without the regex block extraction. -/
def nonIterNormalize (doc : String) : String :=
  let ls := captureXbrlLines (splitLines doc)
  let content := match ls with | [] => doc | _ => joinLines ls
  let content := stripStr content
  let content := stripStr (removeXmlDecls content)
  "<root>" ++ content ++ "</root>"

/-! ## Document-level entry points -/

/-- `xbrl_parse_financial_data_iterparse` (lines 107-218) on the content
of the file: normalize, stream-parse; a parse failure returns the
all-absent record (`return {}`, line 196), otherwise the scan result with
the Income-Before-Tax fallback and the depreciation/amortization split. -/
def xbrl_parse_financial_data_iterparse (doc : String) : ResolvedFacts :=
  match parseXmlString (iterNormalize doc) with
  | none => allAbsentFacts
  | some es => finalizeScan (scanElems es)

/-- `xbrl_parse_financial_data` (lines 16-105) on the content of the file:
normalize, parse; a parse failure returns the all-`None` record
(lines 48-58), otherwise the whole-fragment alias-chain queries. -/
def xbrl_parse_financial_data (doc : String) : ResolvedFacts :=
  match parseXmlString (nonIterNormalize doc) with
  | none => allAbsentFacts
  | some es => xbrlParseFromElems es

/-! ## The memoization cache (lines 16, 107: `@lru_cache(maxsize=10)`)

`lru_cache` keys on the function argument — the file *path* — while the
file's *content* is read inside the function.  We model the cache as an
explicit association list from path to stored result, threaded through
calls; `content` is what the file holds at the moment of the call.  On a
hit the stored result is returned and the current content is never
read. -/
def cachedIterparseCall (cache : List (String × ResolvedFacts))
    (path : String) (content : String) :
    ResolvedFacts × List (String × ResolvedFacts) :=
  match cache.lookup path with
  | some r => (r, cache)
  | none =>
    let r := xbrl_parse_financial_data_iterparse content
    (r, (path, r) :: cache)

/-! ## Priority structure of the TagPriorityTable

Alias lists per canonical fact, most-preferred first — the insertion
order of `target_names` (lines 139-156), which coincides with the
fallback order of the alias chains in `xbrl_parse_financial_data`
(lines 63-94). -/

/-- Ordered alias (priority) list of each canonical fact. -/
def aliasesOf : FactKey → List String
  | .revenue =>
    ["us-gaap:SalesRevenueNet", "us-gaap:Revenues", "us-gaap:NetSales", "us-gaap:NetRevenue"]
  | .cogs =>
    ["us-gaap:CostOfGoodsSold", "us-gaap:CostOfGoodsAndServicesSold", "us-gaap:CostOfRevenue"]
  | .operatingIncome => ["us-gaap:OperatingIncomeLoss", "us-gaap:OperatingIncome"]
  | .depAmort => ["us-gaap:DepreciationDepletionAndAmortization"]
  | .interestExpense => ["us-gaap:InterestExpense", "us-gaap:InterestExpenseBenefit"]
  | .incomeBeforeTax =>
    ["us-gaap:IncomeBeforeTax", "us-gaap:IncomeBeforeTaxExpenseBenefit",
     "us-gaap:ProfitBeforeTax", "us-gaap:PreTaxIncome"]

/-- The aliases for which the scan loop *overwrites* an already-resolved
value — the second disjuncts of the `if` conditions on lines 176, 179,
182, 188 and 191.  For `depAmort` the set is empty (line 185: first match
only). -/
def overwriteAliases : FactKey → List String
  | .revenue => ["us-gaap:SalesRevenueNet"]
  | .cogs => ["us-gaap:CostOfGoodsSold", "us-gaap:CostOfGoodsAndServicesSold"]
  | .operatingIncome => ["us-gaap:OperatingIncomeLoss"]
  | .depAmort => []
  | .interestExpense => ["us-gaap:InterestExpense"]
  | .incomeBeforeTax =>
    ["us-gaap:IncomeBeforeTax", "us-gaap:ProfitBeforeTax", "us-gaap:PreTaxIncome"]

/-- Field of the scan dict addressed by a canonical key. -/
def getScanFact (d : ScanData) : FactKey → Option ℚ
  | .revenue => d.revenue
  | .cogs => d.cogs
  | .operatingIncome => d.operatingIncome
  | .depAmort => d.depAmort
  | .interestExpense => d.interestExpense
  | .incomeBeforeTax => d.incomeBeforeTax

/-! ## Concrete documents and records used as witnesses -/

/-- A fragment whose two Revenue annotations are, in document order, the
lowest-priority alias (`NetRevenue`, value 100) then a strictly
higher-priority alias (`NetSales`, value 200). -/
def lowThenHighElems : List XmlElem :=
  [⟨inlineNonFractionTag, "us-gaap:NetRevenue", "100"⟩,
   ⟨inlineNonFractionTag, "us-gaap:NetSales", "200"⟩]

/-- File content at the first invocation: Revenue 100. -/
def docContentV1 : String :=
  "<ix:nonFraction xmlns:ix=\"http://www.xbrl.org/2013/inlineXBRL\" name=\"us-gaap:Revenues\">100</ix:nonFraction>"

/-- Changed file content at the second invocation: Revenue 200. -/
def docContentV2 : String :=
  "<ix:nonFraction xmlns:ix=\"http://www.xbrl.org/2013/inlineXBRL\" name=\"us-gaap:Revenues\">200</ix:nonFraction>"

/-- ResolvedFacts with only Interest Expense present (and nonzero). -/
def factsOnlyInterest : ResolvedFacts :=
  ⟨none, none, none, none, none, some 5, none⟩

/-- A parsed fragment holding one combined depreciation-and-amortization
element with value 1000, as the whole-fragment strategy sees it. -/
def daElems : List XmlElem :=
  [⟨gaapTag "DepreciationDepletionAndAmortization", "", "1000"⟩]

/-! # Theorems -/

/-- Every sub-score produced by `scaleScore` lies in `[1, 10]`. -/
theorem scaleScore_bounds (v low high : ℚ) :
    1 ≤ scaleScore v low high ∧ scaleScore v low high ≤ 10 :=
  ⟨le_max_left 1 _, max_le (by norm_num) (min_le_right _ _)⟩

/-- Claim C3: for every MetricsRecord (each scored metric absent or a
rational), `compute_financial_health_score` returns a single number in
`[1, 10]`: absent inputs take their neutral defaults, every sub-score is
clamped to `[1, 10]`, and the six weights 0.25, 0.20, 0.15, 0.15, 0.15,
0.10 sum to 1. -/
theorem composite_score_bounds (m : MetricsRecord) :
    1 ≤ compute_financial_health_score m ∧
      compute_financial_health_score m ≤ 10 := by
  have h1 := scaleScore_bounds (m.grossMargin.getD 0.6) 0.4 0.8
  have h2 := scaleScore_bounds (m.operatingMargin.getD 0.15) 0.0 0.3
  have h3 := scaleScore_bounds (m.ebitdaMargin.getD 0.15) 0.0 0.3
  have h4 := scaleScore_bounds (m.pretaxMargin.getD 0.15) 0.0 0.3
  have h5 := scaleScore_bounds (m.interestCoverage.getD 10) 1 20
  have h6 := scaleScore_bounds (0.5 - m.costEfficiency.getD 0.35) 0 0.3
  unfold compute_financial_health_score
  constructor <;>
    linarith [h1.1, h1.2, h2.1, h2.2, h3.1, h3.2, h4.1, h4.2, h5.1, h5.2, h6.1, h6.2]

/-- Claim C4: with Revenue absent, none of the revenue-denominated
metrics (Gross Margin, Operating Margin, EBITDA Margin, Pre-tax Margin,
Depreciation Ratio, Amortization Ratio, Cost Efficiency) appears in the
MetricsRecord, whatever the other fields hold. -/
theorem metrics_absent_without_revenue (d : ResolvedFacts)
    (h : d.revenue = none) :
    (calculate_metrics d).grossMargin = none ∧
    (calculate_metrics d).operatingMargin = none ∧
    (calculate_metrics d).ebitdaMargin = none ∧
    (calculate_metrics d).pretaxMargin = none ∧
    (calculate_metrics d).depreciationRatio = none ∧
    (calculate_metrics d).amortizationRatio = none ∧
    (calculate_metrics d).costEfficiency = none := by
  simp [calculate_metrics, h]

/-- Witness for `metrics_absent_without_revenue`: all other facts
present, Revenue absent. -/
theorem metrics_absent_without_revenue_witness :
    (calculate_metrics
        ⟨none, some 400, some 200, some 50, some 50, some 20, some 180⟩).grossMargin =
      none ∧
    (calculate_metrics
        ⟨none, some 400, some 200, some 50, some 50, some 20, some 180⟩).operatingMargin =
      none ∧
    (calculate_metrics
        ⟨none, some 400, some 200, some 50, some 50, some 20, some 180⟩).ebitdaMargin =
      none ∧
    (calculate_metrics
        ⟨none, some 400, some 200, some 50, some 50, some 20, some 180⟩).pretaxMargin =
      none ∧
    (calculate_metrics
        ⟨none, some 400, some 200, some 50, some 50, some 20, some 180⟩).depreciationRatio =
      none ∧
    (calculate_metrics
        ⟨none, some 400, some 200, some 50, some 50, some 20, some 180⟩).amortizationRatio =
      none ∧
    (calculate_metrics
        ⟨none, some 400, some 200, some 50, some 50, some 20, some 180⟩).costEfficiency =
      none :=
  metrics_absent_without_revenue
    ⟨none, some 400, some 200, some 50, some 50, some 20, some 180⟩ rfl

/-- Claim C8, counterexample: Interest Expense present and nonzero but
Operating Income absent — the code (line 259 requires
`operating_income is not None`) emits no Interest Coverage Ratio entry,
while the claim demands one for every such input. -/
theorem interest_coverage_missing_without_oi :
    factsOnlyInterest.interestExpense = some 5 ∧ (5 : ℚ) ≠ 0 ∧
    factsOnlyInterest.operatingIncome = none ∧
    (calculate_metrics factsOnlyInterest).interestCoverage = none := by
  decide

/-- Claim C8 as amended: when Operating Income is present *and* Interest
Expense is present and nonzero, the MetricsRecord contains an Interest
Coverage Ratio equal to Operating Income / Interest Expense. -/
theorem interest_coverage_formula (d : ResolvedFacts) (o ie : ℚ)
    (ho : d.operatingIncome = some o) (hie : d.interestExpense = some ie)
    (hne : ie ≠ 0) :
    (calculate_metrics d).interestCoverage = some (o / ie) := by
  simp [calculate_metrics, ho, hie, hne]

/-- Witness for `interest_coverage_formula`: OI 200, IE 20 → ratio 10. -/
theorem interest_coverage_formula_witness :
    (calculate_metrics
        ⟨some 1000, none, some 200, none, none, some 20, none⟩).interestCoverage =
      some (200 / 20 : ℚ) :=
  interest_coverage_formula
    ⟨some 1000, none, some 200, none, none, some 20, none⟩ 200 20 rfl rfl
    (by norm_num)

/-- Claim C7: when the scan finishes with Income Before Tax absent, the
fallback sets it to exactly Operating Income when that is present (no
Interest Expense subtraction), and leaves it absent when Operating Income
is also absent. -/
theorem ibt_fallback_operating_income (d : ScanData) (v : ℚ) :
    (d.incomeBeforeTax = none → d.operatingIncome = some v →
      (finalizeScan d).incomeBeforeTax = some v) ∧
    (d.incomeBeforeTax = none → d.operatingIncome = none →
      (finalizeScan d).incomeBeforeTax = none) := by
  constructor <;> intro h1 h2 <;> simp [finalizeScan, h1, h2]

/-- Witness for `ibt_fallback_operating_income`: a scan state with
Operating Income 200 and no Income Before Tax yields 200; one with
neither yields absent. -/
theorem ibt_fallback_operating_income_witness :
    (finalizeScan ⟨some 1000, none, some 200, none, some 20, none⟩).incomeBeforeTax =
      some 200 ∧
    (finalizeScan ⟨some 1000, none, none, none, some 20, none⟩).incomeBeforeTax =
      none :=
  ⟨(ibt_fallback_operating_income
      ⟨some 1000, none, some 200, none, some 20, none⟩ 200).1 rfl rfl,
   (ibt_fallback_operating_income
      ⟨some 1000, none, none, none, some 20, none⟩ 0).2 rfl rfl⟩

/-- Claim C5: a captured combined depreciation-and-amortization value `v`
resolves to Depreciation = Amortization = `v / 2`, and an uncaptured one
leaves both absent — in the streaming strategy (`finalizeScan`,
lines 202-207) and in the whole-fragment strategy (`nonIterCombined`,
lines 79-86). -/
theorem dep_amort_split (sd : ScanData) (es : List XmlElem) (v : ℚ) :
    (sd.depAmort = some v →
      (finalizeScan sd).depreciation = some (v / 2) ∧
      (finalizeScan sd).amortization = some (v / 2)) ∧
    (sd.depAmort = none →
      (finalizeScan sd).depreciation = none ∧
      (finalizeScan sd).amortization = none) ∧
    (nonIterCombined es = some v →
      (xbrlParseFromElems es).depreciation = some (v / 2) ∧
      (xbrlParseFromElems es).amortization = some (v / 2)) ∧
    (nonIterCombined es = none →
      (xbrlParseFromElems es).depreciation = none ∧
      (xbrlParseFromElems es).amortization = none) := by
  refine ⟨?_, ?_, ?_, ?_⟩ <;> intro h
  · unfold finalizeScan
    split <;> simp [h]
  · unfold finalizeScan
    split <;> simp [h]
  · simp [xbrlParseFromElems, h]
  · simp [xbrlParseFromElems, h]

/-- Witness for `dep_amort_split`: the spec scenario — a combined value
of 1000 yields exactly 500 for each side, and no combined value yields
two absent fields, in both strategies. -/
theorem dep_amort_split_witness :
    ((finalizeScan ⟨none, none, none, some 1000, none, none⟩).depreciation =
        some (1000 / 2 : ℚ) ∧
      (finalizeScan ⟨none, none, none, some 1000, none, none⟩).amortization =
        some (1000 / 2 : ℚ)) ∧
    ((finalizeScan initialScanData).depreciation = none ∧
      (finalizeScan initialScanData).amortization = none) ∧
    ((xbrlParseFromElems daElems).depreciation = some (1000 / 2 : ℚ) ∧
      (xbrlParseFromElems daElems).amortization = some (1000 / 2 : ℚ)) ∧
    ((xbrlParseFromElems []).depreciation = none ∧
      (xbrlParseFromElems []).amortization = none) ∧
    (1000 / 2 : ℚ) = 500 :=
  ⟨(dep_amort_split ⟨none, none, none, some 1000, none, none⟩ [] 1000).1 rfl,
   (dep_amort_split initialScanData [] 0).2.1 rfl,
   (dep_amort_split initialScanData daElems 1000).2.2.1
     (by with_unfolding_all rfl),
   (dep_amort_split initialScanData [] 0).2.2.2 (by decide),
   by norm_num⟩

/-- Claim C6: an annotation whose text fails numeric conversion leaves
the scan state untouched — it contributes no value, overwrites nothing
already resolved, and the scan of the remaining annotations proceeds as
if it were not there. -/
theorem numeric_parse_failure_local (st : ScanData) (e : XmlElem)
    (pre post : List XmlElem) (h : try_convert_to_float e.text = none) :
    processElem st e = st ∧
    scanElems (pre ++ e :: post) = scanElems (pre ++ post) := by
  have hkeep : ∀ s : ScanData, processElem s e = s := by
    intro s
    unfold processElem
    split
    · cases target_names e.name <;> simp [h]
    · rfl
  refine ⟨hkeep st, ?_⟩
  unfold scanElems
  rw [List.foldl_append, List.foldl_append, List.foldl_cons, hkeep]

/-- Witness for `numeric_parse_failure_local`: a matching Revenue
annotation with unparseable text `"N/A"` neither changes an already
resolved state nor affects the scan around it. -/
theorem numeric_parse_failure_local_witness :
    processElem ⟨some 1, none, none, none, none, none⟩
        ⟨inlineNonFractionTag, "us-gaap:Revenues", "N/A"⟩ =
      ⟨some 1, none, none, none, none, none⟩ ∧
    scanElems ([⟨inlineNonFractionTag, "us-gaap:Revenues", "50"⟩] ++
        ⟨inlineNonFractionTag, "us-gaap:Revenues", "N/A"⟩ ::
          [⟨inlineNonFractionTag, "us-gaap:CostOfRevenue", "20"⟩]) =
      scanElems ([⟨inlineNonFractionTag, "us-gaap:Revenues", "50"⟩] ++
        [⟨inlineNonFractionTag, "us-gaap:CostOfRevenue", "20"⟩]) :=
  numeric_parse_failure_local ⟨some 1, none, none, none, none, none⟩
    ⟨inlineNonFractionTag, "us-gaap:Revenues", "N/A"⟩
    [⟨inlineNonFractionTag, "us-gaap:Revenues", "50"⟩]
    [⟨inlineNonFractionTag, "us-gaap:CostOfRevenue", "20"⟩] (by decide)

/-- In the streaming finalization the two split fields always agree. -/
theorem finalizeScan_dep_eq_amort (d : ScanData) :
    (finalizeScan d).depreciation = (finalizeScan d).amortization := by
  unfold finalizeScan
  dsimp only
  split <;> rfl

/-- Claim C10: both extraction strategies keep Depreciation and
Amortization in lock-step — the two fields of any produced record are
equal as optional values (both absent, or both present and equal). -/
theorem dep_amort_symmetry (doc : String) :
    (xbrl_parse_financial_data_iterparse doc).depreciation =
      (xbrl_parse_financial_data_iterparse doc).amortization ∧
    (xbrl_parse_financial_data doc).depreciation =
      (xbrl_parse_financial_data doc).amortization := by
  constructor
  · unfold xbrl_parse_financial_data_iterparse
    cases parseXmlString (iterNormalize doc)
    · rfl
    · exact finalizeScan_dep_eq_amort _
  · unfold xbrl_parse_financial_data
    cases parseXmlString (nonIterNormalize doc)
    · rfl
    · unfold xbrlParseFromElems
      dsimp only
      split <;> rfl

/-- Claim C2: fact extraction is a total function of the document text
(the embedding of "never raises"), and whenever the wrapped fragment
cannot be parsed at all, both strategies return the record with all 7
fields absent (`return {}` on line 196 and the all-`None` dict of
lines 50-58). -/
theorem parse_failure_all_absent (doc : String) :
    (parseXmlString (iterNormalize doc) = none →
      xbrl_parse_financial_data_iterparse doc = allAbsentFacts) ∧
    (parseXmlString (nonIterNormalize doc) = none →
      xbrl_parse_financial_data doc = allAbsentFacts) := by
  constructor <;> intro h <;>
    simp [xbrl_parse_financial_data_iterparse, xbrl_parse_financial_data, h]

/-- Witness for `parse_failure_all_absent`: the malformed document
`"<foo"` (unterminated tag) makes both strategies return all-absent. -/
theorem parse_failure_all_absent_witness :
    xbrl_parse_financial_data_iterparse "<foo" = allAbsentFacts ∧
    xbrl_parse_financial_data "<foo" = allAbsentFacts :=
  ⟨(parse_failure_all_absent "<foo").1 (by with_unfolding_all rfl),
   (parse_failure_all_absent "<foo").2 (by with_unfolding_all rfl)⟩

set_option maxRecDepth 100000 in
/-- Claim C9 fails on the code: `lru_cache` keys on the file path alone,
so a second invocation on the same path after the file content changed
returns the result computed from the *old* content (here Revenue 100),
which differs from the extraction of the new content (Revenue 200). -/
theorem stale_cache_on_changed_content :
    (cachedIterparseCall (cachedIterparseCall [] "filing.txt" docContentV1).2
        "filing.txt" docContentV2).1 =
      xbrl_parse_financial_data_iterparse docContentV1 ∧
    (cachedIterparseCall (cachedIterparseCall [] "filing.txt" docContentV1).2
        "filing.txt" docContentV2).1 ≠
      xbrl_parse_financial_data_iterparse docContentV2 := by
  constructor
  · with_unfolding_all rfl
  · intro h
    have h1 : (cachedIterparseCall
        (cachedIterparseCall [] "filing.txt" docContentV1).2
        "filing.txt" docContentV2).1.revenue = some 100 := by
      with_unfolding_all rfl
    have h2 : (xbrl_parse_financial_data_iterparse docContentV2).revenue =
        some 200 := by
      with_unfolding_all rfl
    rw [h, h2] at h1
    have h3 : (200 : ℚ) = 100 := Option.some.inj h1
    norm_num at h3

/-- Claim C1 counterexample: in Revenue's priority list `NetSales`
strictly precedes `NetRevenue`; the fragment carries the lower-priority
`NetRevenue` (value 100) first and the strictly higher-priority
`NetSales` (value 200) later, both values convert, yet the resolved
Revenue is 100 — the later, higher-priority alias did not override
(line 176 only lets `SalesRevenueNet` overwrite). -/
theorem priority_override_cex :
    (aliasesOf FactKey.revenue).indexOf "us-gaap:NetSales" <
      (aliasesOf FactKey.revenue).indexOf "us-gaap:NetRevenue" ∧
    try_convert_to_float "100" = some 100 ∧
    try_convert_to_float "200" = some 200 ∧
    (finalizeScan (scanElems lowThenHighElems)).revenue = some 100 ∧
    (finalizeScan (scanElems lowThenHighElems)).revenue ≠ some 200 := by
  refine ⟨by decide, by with_unfolding_all rfl, by with_unfolding_all rfl,
    by with_unfolding_all rfl, ?_⟩
  intro h
  have hv : (finalizeScan (scanElems lowThenHighElems)).revenue = some 100 := by
    with_unfolding_all rfl
  rw [hv] at h
  have h3 : (100 : ℚ) = 200 := Option.some.inj h
  norm_num at h3

set_option maxHeartbeats 1000000 in
/-- Claim C1 as amended: for two annotations of the same canonical fact
in one fragment, the later one overwrites the earlier value exactly when
its alias is in the fact's designated overwrite set (`SalesRevenueNet`
for Revenue, `CostOfGoodsSold`/`CostOfGoodsAndServicesSold` for COGS,
`OperatingIncomeLoss` for Operating Income, `InterestExpense` for
Interest Expense, `IncomeBeforeTax`/`ProfitBeforeTax`/`PreTaxIncome` for
Income Before Tax, nothing for the combined D&A concept); otherwise the
first value is kept.  Priority does not otherwise beat document order. -/
theorem streaming_overwrite_policy (k : FactKey) (n1 n2 t1 t2 : String) (v1 v2 : ℚ)
    (h1 : n1 ∈ aliasesOf k) (h2 : n2 ∈ aliasesOf k)
    (hp1 : try_convert_to_float t1 = some v1)
    (hp2 : try_convert_to_float t2 = some v2) :
    getScanFact
        (scanElems [⟨inlineNonFractionTag, n1, t1⟩, ⟨inlineNonFractionTag, n2, t2⟩]) k
      = some (if n2 ∈ overwriteAliases k then v2 else v1) := by
  cases k <;>
    (fin_cases h1 <;> fin_cases h2 <;>
      simp [scanElems, processElem, target_names, getScanFact, overwriteAliases,
        initialScanData, inlineNonFractionTag, hp1, hp2])

/-- Witness for `streaming_overwrite_policy`: `NetRevenue` 100 then the
top-priority `SalesRevenueNet` 200 resolves Revenue to 200. -/
theorem streaming_overwrite_policy_witness :
    getScanFact (scanElems [⟨inlineNonFractionTag, "us-gaap:NetRevenue", "100"⟩,
        ⟨inlineNonFractionTag, "us-gaap:SalesRevenueNet", "200"⟩]) FactKey.revenue =
      some 200 := by
  have h := streaming_overwrite_policy FactKey.revenue "us-gaap:NetRevenue"
    "us-gaap:SalesRevenueNet" "100" "200" 100 200 (by decide) (by decide)
    (by with_unfolding_all rfl) (by with_unfolding_all rfl)
  simpa [overwriteAliases] using h
